import Mathlib

/-!
Verification of the client-side filtering / pagination / aggregation /
milestone engine of `src/components/corporation/CorporationList.tsx`
(repository nitind27/voterscorporationlist).

The source file contains two variants of the `CorporationList` component;
the second variant (the one with transfer / "voters not yet" filters,
Excel/PDF export and the milestone celebration) is embedded under the
source names (`allFilteredData`, `filteredData`, `filteredPagination`,
`summaryStats`, `exportToExcel`, ...).  The first variant's summary
aggregator, which differs in its percentage denominator, is embedded as
`computeStatsFirst`.

Machine integers are modelled as `Nat`; JavaScript string truthiness
(`if (s)`) is modelled as `s ≠ ""`; JS `Math.round` on non-negative
values is `⌊x + 1/2⌋` over `ℚ`; `Math.ceil(n / 50)` over naturals is
`(n + 49) / 50` (proved equal to the rational ceiling below).
-/

/-- One row of `tbl_voters_search`, restricted to the fields the embedded
core logic reads (all of them strings in the TypeScript interface
`BaseVoterData`). -/
structure VoterRecord where
  Voter_Id : String
  full_name : String
  ENG_Full_name : String
  Age : String
  Gender : String
  House_Number : String
  colony_name : String
  updated_mobile_no : String
  updated_at : String
  voting_status : String
  inst_1_paid : String
  Booth_Number : String
  Booth_Name : String
  Booth_Address : String
  volunteer_name : String
  volunteer_mobile : String
deriving DecidableEq

/-- The five independent filter inputs of the second component variant
(`selectedBooth`, `votingFilter`, `surveyFilter`, `transferFilter`,
`votersNotYetFilter` state cells).  `""` means "unset" (JS falsy). -/
structure FilterState where
  selectedBooth : String
  votingFilter : String
  surveyFilter : String
  transferFilter : String
  votersNotYetFilter : String
deriving DecidableEq

/-- Booth stage of `allFilteredData` (CorporationList.tsx lines 659-662). -/
def boothStage (f : FilterState) (l : List VoterRecord) : List VoterRecord :=
  if f.selectedBooth ≠ "" then
    l.filter (fun item => item.Booth_Number == f.selectedBooth)
  else l

/-- Voting stage of `allFilteredData` (lines 664-675): `done` keeps
`voting_status ∈ {Completed, Direct}`, `not_done` keeps the complement,
any other non-empty value filters nothing. -/
def votingStage (f : FilterState) (l : List VoterRecord) : List VoterRecord :=
  if f.votingFilter ≠ "" then
    if f.votingFilter = "done" then
      l.filter (fun item => item.voting_status == "Completed" || item.voting_status == "Direct")
    else if f.votingFilter = "not_done" then
      l.filter (fun item => item.voting_status != "Completed" && item.voting_status != "Direct")
    else l
  else l

/-- Survey stage of `allFilteredData` (lines 677-684): surveyed iff the
`updated_at` marker is truthy (non-empty). -/
def surveyStage (f : FilterState) (l : List VoterRecord) : List VoterRecord :=
  if f.surveyFilter ≠ "" then
    if f.surveyFilter = "done" then l.filter (fun item => item.updated_at != "")
    else if f.surveyFilter = "not_done" then l.filter (fun item => item.updated_at == "")
    else l
  else l

/-- Transfer stage of `allFilteredData` (lines 686-693): compares the
stringified `inst_1_paid` flag with `"1"`. -/
def transferStage (f : FilterState) (l : List VoterRecord) : List VoterRecord :=
  if f.transferFilter ≠ "" then
    if f.transferFilter = "yes" then l.filter (fun item => item.inst_1_paid == "1")
    else if f.transferFilter = "no" then l.filter (fun item => item.inst_1_paid != "1")
    else l
  else l

/-- "Voters not yet" stage of `allFilteredData` (lines 695-702):
`inst_1_paid == "1"` AND `voting_status ∈ {Pending, In Transit}`. -/
def notYetStage (f : FilterState) (l : List VoterRecord) : List VoterRecord :=
  if f.votersNotYetFilter = "pending" then
    l.filter (fun item =>
      item.inst_1_paid == "1" &&
        (item.voting_status == "Pending" || item.voting_status == "In Transit"))
  else l

/-- `allFilteredData` (CorporationList.tsx, second variant, lines 656-705):
the five filters applied in order booth → voting → survey → transfer →
"voters not yet", each stage a no-op whenever its filter value is unset. -/
def allFilteredData (f : FilterState) (data : List VoterRecord) : List VoterRecord :=
  notYetStage f (transferStage f (surveyStage f (votingStage f (boothStage f data))))

/-- Booth-stage predicate (passes everything when the filter is unset). -/
def boothPred (f : FilterState) : VoterRecord → Bool :=
  if f.selectedBooth ≠ "" then fun item => item.Booth_Number == f.selectedBooth
  else fun _ => true

/-- Voting-stage predicate. -/
def votingPred (f : FilterState) : VoterRecord → Bool :=
  if f.votingFilter ≠ "" then
    if f.votingFilter = "done" then
      fun item => item.voting_status == "Completed" || item.voting_status == "Direct"
    else if f.votingFilter = "not_done" then
      fun item => item.voting_status != "Completed" && item.voting_status != "Direct"
    else fun _ => true
  else fun _ => true

/-- Survey-stage predicate. -/
def surveyPred (f : FilterState) : VoterRecord → Bool :=
  if f.surveyFilter ≠ "" then
    if f.surveyFilter = "done" then fun item => item.updated_at != ""
    else if f.surveyFilter = "not_done" then fun item => item.updated_at == ""
    else fun _ => true
  else fun _ => true

/-- Transfer-stage predicate. -/
def transferPred (f : FilterState) : VoterRecord → Bool :=
  if f.transferFilter ≠ "" then
    if f.transferFilter = "yes" then fun item => item.inst_1_paid == "1"
    else if f.transferFilter = "no" then fun item => item.inst_1_paid != "1"
    else fun _ => true
  else fun _ => true

/-- "Voters not yet"-stage predicate. -/
def notYetPred (f : FilterState) : VoterRecord → Bool :=
  if f.votersNotYetFilter = "pending" then
    fun item => item.inst_1_paid == "1" &&
      (item.voting_status == "Pending" || item.voting_status == "In Transit")
  else fun _ => true

/-- Conjunction of the five stage predicates. -/
def fullFilterPred (f : FilterState) (item : VoterRecord) : Bool :=
  boothPred f item && votingPred f item && surveyPred f item &&
    transferPred f item && notYetPred f item

theorem boothStage_eq_filter (f : FilterState) (l : List VoterRecord) :
    boothStage f l = l.filter (boothPred f) := by
  unfold boothStage boothPred
  split <;> simp

theorem votingStage_eq_filter (f : FilterState) (l : List VoterRecord) :
    votingStage f l = l.filter (votingPred f) := by
  unfold votingStage votingPred
  split <;> [skip; simp]
  split <;> [rfl; skip]
  split <;> simp

theorem surveyStage_eq_filter (f : FilterState) (l : List VoterRecord) :
    surveyStage f l = l.filter (surveyPred f) := by
  unfold surveyStage surveyPred
  split <;> [skip; simp]
  split <;> [rfl; skip]
  split <;> simp

theorem transferStage_eq_filter (f : FilterState) (l : List VoterRecord) :
    transferStage f l = l.filter (transferPred f) := by
  unfold transferStage transferPred
  split <;> [skip; simp]
  split <;> [rfl; skip]
  split <;> simp

theorem notYetStage_eq_filter (f : FilterState) (l : List VoterRecord) :
    notYetStage f l = l.filter (notYetPred f) := by
  unfold notYetStage notYetPred
  split <;> simp

theorem allFilteredData_eq_filter (f : FilterState) (data : List VoterRecord) :
    allFilteredData f data = data.filter (fullFilterPred f) := by
  unfold allFilteredData
  rw [boothStage_eq_filter, votingStage_eq_filter, surveyStage_eq_filter,
    transferStage_eq_filter, notYetStage_eq_filter,
    List.filter_filter, List.filter_filter, List.filter_filter, List.filter_filter]
  refine List.filter_congr (fun a _ => ?_)
  unfold fullFilterPred
  cases boothPred f a <;> cases votingPred f a <;> cases surveyPred f a <;>
    cases transferPred f a <;> cases notYetPred f a <;> rfl

/-- `filteredData` (lines 713-717): the visible page window, JS
`allFilteredData.slice((currentPage-1)*50, (currentPage-1)*50 + 50)`. -/
def filteredData (all : List VoterRecord) (currentPage : Nat) : List VoterRecord :=
  ((all.drop ((currentPage - 1) * 50)).take 50)

/-- The pagination metadata record returned by `filteredPagination` and by
the listing API (TypeScript interface `PaginationInfo`). -/
structure PaginationInfo where
  currentPage : Nat
  totalPages : Nat
  totalRecords : Nat
  limit : Nat
  hasNextPage : Bool
  hasPrevPage : Bool
deriving DecidableEq

/-- `filteredPagination` (lines 720-732).  `Math.ceil(n / 50)` on a natural
count is `(n + 49) / 50` (theorem `totalPages_eq_ceil` relates this to the
rational ceiling). -/
def filteredPagination (totalFilteredRecords currentPage : Nat) : PaginationInfo :=
  let totalPages := (totalFilteredRecords + 49) / 50
  { currentPage := currentPage
    totalPages := totalPages
    totalRecords := totalFilteredRecords
    limit := 50
    hasNextPage := currentPage < totalPages
    hasPrevPage := currentPage > 1 }

/-- JS `Math.round` on the non-negative values arising here: half-up
rounding, `⌊x + 1/2⌋`. -/
def jsRound (x : ℚ) : ℤ := ⌊x + 1 / 2⌋

/-- The summary statistics record of the second variant. -/
structure SummaryStats where
  totalRecords : Nat
  totalSurveyCount : Nat
  votingDoneCount : Nat
  votingDonePercentage : Nat
deriving DecidableEq

/-- Body of the second variant's `summaryStats` memo (lines 893-905) over
its already-chosen scope `dataToUse`: total record count, surveyed count
(`updated_at` truthy), voting-done count (`voting_status ∈
{Completed, Direct}`), and `Math.round((votingDoneCount / totalRecords) *
100)` with `0` on an empty scope. -/
def computeStats (dataToUse : List VoterRecord) : SummaryStats :=
  let totalRecords := dataToUse.length
  let totalSurveyCount := (dataToUse.filter (fun item => item.updated_at != "")).length
  let votingDoneCount := (dataToUse.filter (fun item =>
    item.voting_status == "Completed" || item.voting_status == "Direct")).length
  let votingDonePercentage := if totalRecords > 0 then
      (jsRound ((votingDoneCount : ℚ) / (totalRecords : ℚ) * 100)).toNat
    else 0
  { totalRecords := totalRecords
    totalSurveyCount := totalSurveyCount
    votingDoneCount := votingDoneCount
    votingDonePercentage := votingDonePercentage }

/-- The summary statistics record of the first variant (no
`totalRecords`). -/
structure SummaryStatsFirst where
  totalSurveyCount : Nat
  votingDoneCount : Nat
  votingDonePercentage : Nat
deriving DecidableEq

/-- Body of the first variant's `summaryStats` memo (lines 207-225): its
percentage denominator is the surveyed count, not the record count:
`totalSurveyCount > 0 ? Math.round((votingDoneCount / totalSurveyCount) *
100) : 0`. -/
def computeStatsFirst (dataToUse : List VoterRecord) : SummaryStatsFirst :=
  let totalSurveyCount := (dataToUse.filter (fun item => item.updated_at != "")).length
  let votingDoneCount := (dataToUse.filter (fun item =>
    item.voting_status == "Completed" || item.voting_status == "Direct")).length
  let votingDonePercentage := if totalSurveyCount > 0 then
      (jsRound ((votingDoneCount : ℚ) / (totalSurveyCount : ℚ) * 100)).toNat
    else 0
  { totalSurveyCount := totalSurveyCount
    votingDoneCount := votingDoneCount
    votingDonePercentage := votingDonePercentage }

/-- Scope selection of the second variant's `summaryStats` (line 894):
`const dataToUse = selectedBooth ? allFilteredData : allCorporationData`.
Note that when a booth is selected the scope is the FULLY filtered data
(all five filters), not the booth-only subset. -/
def summaryStatsScope (f : FilterState) (allCorporationData : List VoterRecord) :
    List VoterRecord :=
  if f.selectedBooth ≠ "" then allFilteredData f allCorporationData else allCorporationData

/-- `summaryStats` of the second variant (lines 893-905), as a function of
the filter state and the full dataset. -/
def summaryStats (f : FilterState) (allCorporationData : List VoterRecord) : SummaryStats :=
  computeStats (summaryStatsScope f allCorporationData)

/-- The spec's percentage formula, written from the spec's words:
"`votingDonePercentage = round(votingDoneCount / totalRecords * 100)`
(0 when `totalRecords == 0`)", with round-half-up rounding. -/
def specVotingDonePercentage (votingDoneCount totalRecords : Nat) : Nat :=
  if totalRecords = 0 then 0
  else (⌊(votingDoneCount : ℚ) / (totalRecords : ℚ) * 100 + 1 / 2⌋).toNat

/-- The decile milestone list (line 909). -/
def milestones : List Nat := [10, 20, 30, 40, 50, 60, 70, 80, 90, 100]

/-- The milestone detector's mutable cells: `prevPercentageRef` (sentinel
`0`), `lastMilestoneRef`, and the celebration UI state
(`showCardCelebration`, `celebrationPercentage`). -/
structure MilestoneState where
  prevPercentage : Nat
  lastMilestone : Option Nat
  showCelebration : Bool
  celebrationValue : Option Nat
deriving DecidableEq

/-- The component's initial milestone state (lines 549-556):
`prevPercentageRef = 0`, `lastMilestoneRef = null`, no celebration. -/
def initialMilestoneState : MilestoneState :=
  { prevPercentage := 0
    lastMilestone := none
    showCelebration := false
    celebrationValue := none }

/-- `Math.max(...alreadyReached)` over the reached-milestone list, as used
by the seed branch (line 918). -/
def highestReachedMilestone (pct : Nat) : Nat :=
  (milestones.filter (fun m => decide (pct ≥ m))).foldl max 0

/-- The fire branch (lines 920-938): when the percentage rose, find the
LOWEST decile `m` with `prevPercentage < m ≤ pct` (`milestones.find`);
fire it iff it differs from `lastMilestoneRef` and no celebration is
currently showing.  The local `prevPercentage` the branch reads is the
value captured before any update, i.e. `s.prevPercentage`. -/
def milestoneFire (s : MilestoneState) (pct : Nat) : MilestoneState × Option Nat :=
  if pct > s.prevPercentage then
    match milestones.find? (fun m => decide (s.prevPercentage < m ∧ pct ≥ m)) with
    | some reachedMilestone =>
      if s.lastMilestone ≠ some reachedMilestone ∧ s.showCelebration = false then
        ({ s with
            lastMilestone := some reachedMilestone
            celebrationValue := some reachedMilestone
            showCelebration := true }, some reachedMilestone)
      else (s, none)
    | none => (s, none)
  else (s, none)

/-- One advance of the milestone detector (lines 907-943), per
`summaryStats` recompute.  Returns the new state and the fired milestone
(`some m` exactly when the code enters the celebration branch, i.e. calls
`setCelebrationPercentage(m); setShowCardCelebration(true)`).

Branches, in source order:
* seed (lines 912-919): `prevPercentage === 0 && pct > 0` — set the ref to
  `pct` and record the highest already-reached decile; no fire;
* fire (lines 920-938): `pct > prevPercentage` and the lowest decile `m`
  with `prevPercentage < m ≤ pct` exists, differs from
  `lastMilestoneRef`, and no celebration is showing — fire `m`;
* trailing ref update (lines 940-943): `pct !== prevPercentage &&
  prevPercentage !== 0` — set the ref to `pct` (reading the local
  `prevPercentage` captured before the branches ran). -/
def milestoneStep (s : MilestoneState) (pct : Nat) : MilestoneState × Option Nat :=
  if s.prevPercentage = 0 ∧ pct > 0 then
    let alreadyReached := milestones.filter (fun m => decide (pct ≥ m))
    ({ s with
        prevPercentage := pct
        lastMilestone := if alreadyReached.length > 0 then
            some (alreadyReached.foldl max 0)
          else s.lastMilestone }, none)
  else
    if pct ≠ s.prevPercentage ∧ s.prevPercentage ≠ 0 then
      ({ (milestoneFire s pct).1 with prevPercentage := pct }, (milestoneFire s pct).2)
    else milestoneFire s pct

/-- The celebration auto-clear (5-second timeout, lines 933-936) or the
manual dismiss (lines 1161-1164): reset the celebration UI state. -/
def clearCelebration (s : MilestoneState) : MilestoneState :=
  { s with showCelebration := false, celebrationValue := none }

/-- Run the milestone detector over a sequence of observed percentages,
one `summaryStats` recompute per element, with the 5-second auto-clear
elapsing between successive recomputes; returns the final state and the
list of fired milestones in firing order. -/
def runMilestones (s : MilestoneState) : List Nat → MilestoneState × List Nat
  | [] => (s, [])
  | pct :: rest =>
    let step := milestoneStep s pct
    let tail := runMilestones (clearCelebration step.1) rest
    (tail.1, step.2.toList ++ tail.2)

/-- The fired-milestone trace of `runMilestones`. -/
def firedList (s : MilestoneState) (ps : List Nat) : List Nat :=
  (runMilestones s ps).2

/-- The listing endpoint's response shape (TypeScript interface
`ApiResponse`); `data` is optional to model the `result.data || []`
null-guard. -/
structure ApiResponse where
  data : Option (List VoterRecord)
  pagination : PaginationInfo
deriving DecidableEq

/-- The component state touched by the two fetch operations, plus the
observable notification channels: `toasts` records `toast.error` calls
(user-visible), `consoleErrors` records `console.error` calls
(developer console only). -/
structure ComponentState where
  corporationListData : List VoterRecord
  allCorporationData : List VoterRecord
  corporationListLoading : Bool
  pagination : Option PaginationInfo
  currentPage : Nat
  toasts : List String
  consoleErrors : List String
deriving DecidableEq

/-- `fetchAllCorporationData` (lines 559-569) as a state transition on the
completed fetch outcome: on success store `result.data || []`; on any
failure (transport error or `!response.ok`) log to the console and reset
`allCorporationData` to `[]`.  No toast is raised and nothing else
changes; there is no retry. -/
def fetchAllCorporationData (st : ComponentState) (result : Except String ApiResponse) :
    ComponentState :=
  match result with
  | Except.ok res => { st with allCorporationData := res.data.getD [] }
  | Except.error _ =>
    { st with
        consoleErrors := st.consoleErrors ++ ["Error fetching all corporation data:"]
        allCorporationData := [] }

/-- `fetchCorporationList` (lines 572-589) as a state transition on the
completed fetch outcome for a requested `page`: on success store the page
data, the server pagination metadata and the page number; on failure log
to the console, raise the toast "Failed to load corporation list", and
reset the page data and pagination.  The `finally` block leaves
`corporationListLoading` false in both cases; there is no retry. -/
def fetchCorporationList (st : ComponentState) (page : Nat)
    (result : Except String ApiResponse) : ComponentState :=
  match result with
  | Except.ok res =>
    { st with
        corporationListData := res.data.getD []
        pagination := some res.pagination
        currentPage := page
        corporationListLoading := false }
  | Except.error _ =>
    { st with
        consoleErrors := st.consoleErrors ++ ["Error fetching corporation list:"]
        toasts := st.toasts ++ ["Failed to load corporation list"]
        corporationListData := []
        pagination := none
        corporationListLoading := false }

/-- One exported spreadsheet row (the object literal of lines 738-756). -/
structure ExcelRow where
  srNo : Nat
  voterId : String
  fullName : String
  englishName : String
  age : String
  gender : String
  houseNumber : String
  colonyName : String
  mobileNumber : String
  surveyStatus : String
  votingStatus : String
  transferStatus : String
  boothNumber : String
  boothName : String
  boothAddress : String
  volunteerName : String
  volunteerMobile : String
deriving DecidableEq

/-- JS `value || 'N/A'` on a string field. -/
def orNA (s : String) : String := if s = "" then "N/A" else s

/-- The per-record row mapping of `exportToExcel` (lines 738-756), with
the 1-based serial number `index + 1`. -/
def toExcelRow (srNo : Nat) (item : VoterRecord) : ExcelRow :=
  { srNo := srNo
    voterId := orNA item.Voter_Id
    fullName := orNA item.full_name
    englishName := orNA item.ENG_Full_name
    age := orNA item.Age
    gender := orNA item.Gender
    houseNumber := orNA item.House_Number
    colonyName := orNA item.colony_name
    mobileNumber := orNA item.updated_mobile_no
    surveyStatus := if item.updated_at ≠ "" then "YES" else "NO"
    votingStatus := if item.voting_status = "" then "Pending" else item.voting_status
    transferStatus := if item.inst_1_paid = "1" then "Yes" else "No"
    boothNumber := orNA item.Booth_Number
    boothName := orNA item.Booth_Name
    boothAddress := orNA item.Booth_Address
    volunteerName := orNA item.volunteer_name
    volunteerMobile := orNA item.volunteer_mobile }

/-- `exportToExcel` (lines 735-774): the exported row list,
`allFilteredData.map((item, index) => ({ 'Sr. No.': index + 1, ... }))`.
It reads `allFilteredData` only — `currentPage` does not occur in the
export closure. -/
def exportToExcel (f : FilterState) (allCorporationData : List VoterRecord) : List ExcelRow :=
  (allFilteredData f allCorporationData).mapIdx (fun index item => toExcelRow (index + 1) item)

/-- A sample voter record used to instantiate universally quantified
theorems at concrete inputs. -/
def sampleRecord : VoterRecord :=
  { Voter_Id := "V001"
    full_name := "Name One"
    ENG_Full_name := "Name One"
    Age := "30"
    Gender := "M"
    House_Number := "12"
    colony_name := "Colony A"
    updated_mobile_no := "9999999999"
    updated_at := "2024-01-01"
    voting_status := "Completed"
    inst_1_paid := "1"
    Booth_Number := "1"
    Booth_Name := "Booth One"
    Booth_Address := "Addr 1"
    volunteer_name := "Vol"
    volunteer_mobile := "8888888888" }

/-- A second sample record: not surveyed, voting pending, not transferred,
same booth as `sampleRecord`. -/
def pendingRecord : VoterRecord :=
  { Voter_Id := "V002"
    full_name := "Name Two"
    ENG_Full_name := "Name Two"
    Age := "40"
    Gender := "F"
    House_Number := "13"
    colony_name := "Colony A"
    updated_mobile_no := ""
    updated_at := ""
    voting_status := "Pending"
    inst_1_paid := "0"
    Booth_Number := "1"
    Booth_Name := "Booth One"
    Booth_Address := "Addr 1"
    volunteer_name := "Vol"
    volunteer_mobile := "" }

/-- C7: `applyFilters` (the `allFilteredData` pipeline) is idempotent:
applying the five-stage filter pipeline to its own output, with the same
`FilterState`, returns the output unchanged. -/
theorem applyFilters_idempotent (f : FilterState) (data : List VoterRecord) :
    allFilteredData f (allFilteredData f data) = allFilteredData f data := by
  rw [allFilteredData_eq_filter, allFilteredData_eq_filter, List.filter_filter]
  exact List.filter_congr (fun a _ => Bool.and_self _)

theorem totalPages_eq_ceil (n page : Nat) :
    ((filteredPagination n page).totalPages : ℤ) = ⌈(n : ℚ) / 50⌉ := by
  have h50 : (0 : ℚ) < 50 := by norm_num
  symm
  rw [Int.ceil_eq_iff]
  constructor
  · rw [sub_lt_iff_lt_add, show ((n : ℚ) / 50 + 1) = ((n : ℚ) + 50) / 50 by ring,
      lt_div_iff₀ h50]
    have : (n + 49) / 50 * 50 < n + 50 := by omega
    calc ((((filteredPagination n page).totalPages : ℤ)) : ℚ) * 50
        = (((n + 49) / 50 * 50 : ℕ) : ℚ) := by
          unfold filteredPagination
          push_cast
          norm_cast
      _ < (((n + 50 : ℕ)) : ℚ) := by exact_mod_cast this
      _ = (n : ℚ) + 50 := by push_cast; ring
  · rw [div_le_iff₀ h50]
    have : n ≤ (n + 49) / 50 * 50 := by omega
    calc (n : ℚ) ≤ (((n + 49) / 50 * 50 : ℕ) : ℚ) := by exact_mod_cast this
      _ = ((((filteredPagination n page).totalPages : ℤ)) : ℚ) * 50 := by
          unfold filteredPagination
          push_cast
          norm_cast

/-- C6: the Pagination Slicer.  For every filtered dataset and every page
number `page ≥ 1` (page size 50): the window has length at most 50; it
equals the slice `filteredDataset[(page-1)*50 : page*50]` (take-then-drop
form); a page beyond `totalPages` yields the empty window; and
`totalPages` is the rational ceiling `⌈len / 50⌉`. -/
theorem paginationSlicer_spec (l : List VoterRecord) (page : Nat) (hpage : 1 ≤ page) :
    (filteredData l page).length ≤ 50 ∧
    filteredData l page = (l.take (page * 50)).drop ((page - 1) * 50) ∧
    ((filteredPagination l.length page).totalPages < page → filteredData l page = []) ∧
    ((filteredPagination l.length page).totalPages : ℤ) = ⌈(l.length : ℚ) / 50⌉ := by
  refine ⟨List.length_take_le 50 _, ?_, ?_, totalPages_eq_ceil l.length page⟩
  · rw [List.drop_take]
    have h : page * 50 - (page - 1) * 50 = 50 := by omega
    rw [h]
    rfl
  · intro hgt
    have hlen : l.length ≤ (page - 1) * 50 := by
      have := hgt
      unfold filteredPagination at this
      simp only at this
      omega
    unfold filteredData
    rw [List.drop_eq_nil_iff.mpr hlen, List.take_nil]

/-- Witness for `paginationSlicer_spec` at a concrete one-record dataset
and the out-of-range page 2. -/
theorem paginationSlicer_spec_witness :
    (filteredData [sampleRecord] 2).length ≤ 50 ∧
    filteredData [sampleRecord] 2 =
      (([sampleRecord] : List VoterRecord).take (2 * 50)).drop ((2 - 1) * 50) ∧
    ((filteredPagination (List.length [sampleRecord]) 2).totalPages < 2 →
      filteredData [sampleRecord] 2 = []) ∧
    ((filteredPagination (List.length [sampleRecord]) 2).totalPages : ℤ) =
      ⌈(List.length [sampleRecord] : ℚ) / 50⌉ :=
  paginationSlicer_spec [sampleRecord] 2 (by decide)

theorem flatten_pages_eq_take (l : List VoterRecord) :
    ∀ n : Nat, ((List.range n).map (fun i => filteredData l (i + 1))).flatten = l.take (n * 50)
  | 0 => by simp
  | n + 1 => by
    rw [List.range_succ, List.map_append, List.flatten_append,
      flatten_pages_eq_take l n]
    have h : (n + 1) * 50 = n * 50 + 50 := by ring
    rw [h, List.take_add]
    simp [filteredData]

/-- C8: pagination round-trip.  Concatenating the windows of pages 1
through `totalPages` (page size 50), in page order, reconstructs the
filtered dataset in its original order. -/
theorem pagination_roundTrip (l : List VoterRecord) :
    ((List.range (filteredPagination l.length 1).totalPages).map
      (fun i => filteredData l (i + 1))).flatten = l := by
  rw [flatten_pages_eq_take]
  refine List.take_of_length_le ?_
  unfold filteredPagination
  simp only
  omega

/-- C10: `exportToExcel` exports the whole filtered dataset, not the
displayed page: the exported rows are in bijection with `allFilteredData`
(one row per record, same order), the i-th row being the spreadsheet
mapping of the i-th filtered record with 1-based serial number `i + 1`.
`currentPage` does not occur in the export at all. -/
theorem exportToExcel_spec (f : FilterState) (data : List VoterRecord) :
    (exportToExcel f data).length = (allFilteredData f data).length ∧
    ∀ i : Nat, (exportToExcel f data)[i]? =
      ((allFilteredData f data)[i]?).map (fun item => toExcelRow (i + 1) item) := by
  constructor
  · exact List.length_mapIdx
  · intro i
    exact List.getElem?_mapIdx

theorem jsRound_natCast_div (c t : Nat) (ht : 0 < t) :
    jsRound ((c : ℚ) / (t : ℚ) * 100) = ((200 * c + t : ℕ) : ℤ) / ((2 * t : ℕ) : ℤ) := by
  have ht' : ((t : ℚ)) ≠ 0 := Nat.cast_ne_zero.mpr ht.ne'
  have h : (c : ℚ) / (t : ℚ) * 100 + 1 / 2 =
      (((200 * c + t : ℕ) : ℤ) : ℚ) / (((2 * t : ℕ) : ℚ)) := by
    push_cast
    field_simp
    ring
  rw [jsRound, h]
  exact Rat.floor_intCast_div_natCast _ _

theorem jsRound_pct_toNat (c t : Nat) (ht : 0 < t) :
    (jsRound ((c : ℚ) / (t : ℚ) * 100)).toNat = (200 * c + t) / (2 * t) := by
  rw [jsRound_natCast_div c t ht, ← Int.natCast_div]
  exact Int.toNat_natCast _

/-- The spec's percentage formula, reduced to natural-number round-half-up
division. -/
theorem specVotingDonePercentage_eq (c t : Nat) :
    specVotingDonePercentage c t = if t = 0 then 0 else (200 * c + t) / (2 * t) := by
  unfold specVotingDonePercentage
  rcases Nat.eq_zero_or_pos t with h | h
  · simp [h]
  · rw [if_neg h.ne', if_neg h.ne']
    exact jsRound_pct_toNat c t h

/-- The second variant's percentage, reduced to natural-number
round-half-up division. -/
theorem computeStats_pct (d : List VoterRecord) :
    (computeStats d).votingDonePercentage =
      if d.length = 0 then 0
      else (200 * (computeStats d).votingDoneCount + d.length) / (2 * d.length) := by
  unfold computeStats
  simp only
  rcases Nat.eq_zero_or_pos d.length with h | h
  · simp [h]
  · rw [if_pos h, if_neg h.ne', jsRound_pct_toNat _ _ h]

/-- The first variant's percentage, reduced to natural-number
round-half-up division over the surveyed count. -/
theorem computeStatsFirst_pct (d : List VoterRecord) :
    (computeStatsFirst d).votingDonePercentage =
      if (computeStatsFirst d).totalSurveyCount = 0 then 0
      else (200 * (computeStatsFirst d).votingDoneCount +
          (computeStatsFirst d).totalSurveyCount) /
        (2 * (computeStatsFirst d).totalSurveyCount) := by
  unfold computeStatsFirst
  simp only
  rcases Nat.eq_zero_or_pos (d.filter (fun item => item.updated_at != "")).length with h | h
  · simp [h]
  · rw [if_pos h, if_neg h.ne', jsRound_pct_toNat _ _ h]

/-- C3 counterexample: on the two-record scope dataset
`[sampleRecord, pendingRecord]` (1 surveyed, 1 voting-done out of 2), the
FIRST variant's `summaryStats` computes `round(1/1*100) = 100`, not the
claimed `round(votingDoneCount / totalRecords * 100) = round(1/2*100) =
50` — its denominator is the surveyed count, not the record count. -/
theorem votingDonePercentage_counterexample :
    (computeStatsFirst [sampleRecord, pendingRecord]).votingDoneCount = 1 ∧
    (List.length [sampleRecord, pendingRecord]) = 2 ∧
    (computeStatsFirst [sampleRecord, pendingRecord]).votingDonePercentage = 100 ∧
    specVotingDonePercentage 1 2 = 50 ∧
    (computeStatsFirst [sampleRecord, pendingRecord]).votingDonePercentage ≠
      specVotingDonePercentage
        (computeStatsFirst [sampleRecord, pendingRecord]).votingDoneCount
        (List.length [sampleRecord, pendingRecord]) := by
  have hc : (computeStatsFirst [sampleRecord, pendingRecord]).votingDoneCount = 1 := by decide
  have hs : (computeStatsFirst [sampleRecord, pendingRecord]).totalSurveyCount = 1 := by decide
  have hp : (computeStatsFirst [sampleRecord, pendingRecord]).votingDonePercentage = 100 := by
    rw [computeStatsFirst_pct, hs, hc]
    decide
  have hspec : specVotingDonePercentage 1 2 = 50 := by
    rw [specVotingDonePercentage_eq]
    decide
  refine ⟨hc, by decide, hp, hspec, ?_⟩
  rw [hp, hc]
  simp only [List.length_cons, List.length_nil]
  rw [hspec]
  decide

/-- C3 (amended): for every scope dataset, the SECOND variant's aggregator
returns `votingDonePercentage = round-half-up(votingDoneCount /
totalRecords * 100)` with `totalRecords` the scope size and
`votingDoneCount` counting `voting_status ∈ {Completed, Direct}`, yielding
0 (and no error) on an empty scope; the FIRST variant computes the same
round-half-up formula but over the SURVEYED count as denominator
(0 when no record is surveyed). -/
theorem votingDonePercentage_formula (d : List VoterRecord) :
    (computeStats d).totalRecords = d.length ∧
    (computeStats d).votingDoneCount =
      (d.filter (fun item =>
        item.voting_status == "Completed" || item.voting_status == "Direct")).length ∧
    (computeStats d).votingDonePercentage =
      specVotingDonePercentage (computeStats d).votingDoneCount d.length ∧
    (d.length = 0 → (computeStats d).votingDonePercentage = 0) ∧
    (computeStatsFirst d).votingDonePercentage =
      specVotingDonePercentage (computeStatsFirst d).votingDoneCount
        (computeStatsFirst d).totalSurveyCount := by
  refine ⟨rfl, rfl, ?_, ?_, ?_⟩
  · rw [computeStats_pct, specVotingDonePercentage_eq]
  · intro h
    rw [computeStats_pct, if_pos h]
  · rw [computeStatsFirst_pct, specVotingDonePercentage_eq]

/-- Witness for `votingDonePercentage_formula` at a concrete dataset,
discharging the empty-scope hypothesis at `d = []`. -/
theorem votingDonePercentage_formula_witness :
    (computeStats ([] : List VoterRecord)).votingDonePercentage = 0 :=
  (votingDonePercentage_formula []).2.2.2.1 rfl

/-- The filter state of the scope counterexample: booth `"1"` selected AND
voting filter `done` active. -/
def boothAndVotingFilter : FilterState :=
  { selectedBooth := "1"
    votingFilter := "done"
    surveyFilter := ""
    transferFilter := ""
    votersNotYetFilter := "" }

/-- C2 counterexample: with booth `"1"` selected and the voting filter
also set to `done`, on a dataset of two booth-1 records (one voting-done,
one pending) the stats scope is the FULLY filtered set (1 record), not the
booth-only subset (2 records): the other filters DO narrow the stats
scope. -/
theorem summaryStats_scope_counterexample :
    (summaryStats boothAndVotingFilter [sampleRecord, pendingRecord]).totalRecords = 1 ∧
    (([sampleRecord, pendingRecord] : List VoterRecord).filter
      (fun item => item.Booth_Number == boothAndVotingFilter.selectedBooth)).length = 2 ∧
    (summaryStats boothAndVotingFilter [sampleRecord, pendingRecord]).totalRecords ≠
      (computeStats (([sampleRecord, pendingRecord] : List VoterRecord).filter
        (fun item => item.Booth_Number == boothAndVotingFilter.selectedBooth))).totalRecords := by
  refine ⟨by decide, by decide, ?_⟩
  intro h
  have h1 : (summaryStats boothAndVotingFilter [sampleRecord, pendingRecord]).totalRecords
      = 1 := by decide
  have h2 : (computeStats (([sampleRecord, pendingRecord] : List VoterRecord).filter
      (fun item => item.Booth_Number == boothAndVotingFilter.selectedBooth))).totalRecords
      = 2 := by decide
  rw [h1, h2] at h
  exact absurd h (by decide)

/-- C2 (amended): when the booth filter is set, `summaryStats` is computed
over `allFilteredData` — the subset surviving ALL active filters (booth,
voting, survey, transfer, not-yet), not the booth-only subset; when the
booth filter is unset, it is computed over the full dataset and no filter
narrows the stats scope. -/
theorem summaryStats_scope (f : FilterState) (data : List VoterRecord) :
    (f.selectedBooth ≠ "" → summaryStats f data = computeStats (allFilteredData f data)) ∧
    (f.selectedBooth = "" → summaryStats f data = computeStats data) := by
  constructor
  · intro h
    unfold summaryStats summaryStatsScope
    rw [if_pos h]
  · intro h
    unfold summaryStats summaryStatsScope
    rw [if_neg (by simp [h])]

/-- Witness for `summaryStats_scope`: both hypotheses discharged at
concrete filter states over the two-record dataset. -/
theorem summaryStats_scope_witness :
    summaryStats boothAndVotingFilter [sampleRecord, pendingRecord] =
      computeStats (allFilteredData boothAndVotingFilter [sampleRecord, pendingRecord]) ∧
    summaryStats (FilterState.mk "" "done" "" "" "") [sampleRecord, pendingRecord] =
      computeStats [sampleRecord, pendingRecord] :=
  ⟨(summaryStats_scope boothAndVotingFilter [sampleRecord, pendingRecord]).1 (by decide),
   (summaryStats_scope (FilterState.mk "" "done" "" "" "") [sampleRecord, pendingRecord]).2 rfl⟩

/-- A concrete pre-failure component state with prior data and an empty
toast list. -/
def preFailureState : ComponentState :=
  { corporationListData := [sampleRecord]
    allCorporationData := [sampleRecord, pendingRecord]
    corporationListLoading := false
    pagination := some (filteredPagination 2 1)
    currentPage := 1
    toasts := []
    consoleErrors := [] }

/-- C5 counterexample: a failing `fetchAllCorporationData` resets the
dataset to empty but raises NO user-visible notification — the toast list
stays empty (the error goes to the developer console only); the claimed
"surfaces a user-visible error notification" fails for `fetchAll`. -/
theorem fetchAll_failure_counterexample :
    (fetchAllCorporationData preFailureState (Except.error "network error")).allCorporationData
      = [] ∧
    (fetchAllCorporationData preFailureState (Except.error "network error")).toasts = [] ∧
    (fetchAllCorporationData preFailureState
      (Except.error "network error")).consoleErrors.length = 1 := by
  refine ⟨rfl, rfl, rfl⟩

/-- C5 (amended): on fetch failure, `fetchAllCorporationData` resets
`allCorporationData` to empty, logs to the console, raises no toast, and
leaves every other state field untouched; `fetchCorporationList` resets
its page data to empty, clears the pagination metadata, raises the toast
"Failed to load corporation list", ends with loading false, and leaves the
full dataset and current page untouched.  Both are single-shot transitions
(no retry). -/
theorem fetch_failure_behavior (st : ComponentState) (e : String) (page : Nat) :
    (fetchAllCorporationData st (Except.error e)).allCorporationData = [] ∧
    (fetchAllCorporationData st (Except.error e)).toasts = st.toasts ∧
    (fetchAllCorporationData st (Except.error e)).corporationListData =
      st.corporationListData ∧
    (fetchAllCorporationData st (Except.error e)).pagination = st.pagination ∧
    (fetchAllCorporationData st (Except.error e)).currentPage = st.currentPage ∧
    (fetchAllCorporationData st (Except.error e)).corporationListLoading =
      st.corporationListLoading ∧
    (fetchCorporationList st page (Except.error e)).corporationListData = [] ∧
    (fetchCorporationList st page (Except.error e)).pagination = none ∧
    (fetchCorporationList st page (Except.error e)).toasts =
      st.toasts ++ ["Failed to load corporation list"] ∧
    (fetchCorporationList st page (Except.error e)).allCorporationData =
      st.allCorporationData ∧
    (fetchCorporationList st page (Except.error e)).currentPage = st.currentPage ∧
    (fetchCorporationList st page (Except.error e)).corporationListLoading = false := by
  refine ⟨rfl, rfl, rfl, rfl, rfl, rfl, rfl, rfl, rfl, rfl, rfl, rfl⟩

theorem milestoneFire_prev (s : MilestoneState) (pct : Nat) :
    (milestoneFire s pct).1.prevPercentage = s.prevPercentage := by
  unfold milestoneFire
  split
  · split
    · split <;> rfl
    · rfl
  · rfl

theorem milestoneFire_fired (s : MilestoneState) (pct m : Nat)
    (h : (milestoneFire s pct).2 = some m) : s.prevPercentage < m ∧ m ≤ pct := by
  unfold milestoneFire at h
  split at h
  · split at h
    · next hfind =>
      split at h
      · simp only [Prod.snd, Option.some.injEq] at h
        have hp := List.find?_some hfind
        have hp' := of_decide_eq_true hp
        omega
      · simp at h
    · simp at h
  · simp at h

theorem milestoneFire_show (s : MilestoneState) (pct : Nat)
    (h : s.showCelebration = true) : (milestoneFire s pct).2 = none := by
  unfold milestoneFire
  split
  · split
    · next =>
      split
      · next hguard => rw [h] at hguard; simp at hguard
      · rfl
    · rfl
  · rfl

theorem milestoneStep_prev (s : MilestoneState) (pct : Nat) :
    (milestoneStep s pct).1.prevPercentage = pct := by
  unfold milestoneStep
  split
  · rfl
  · next hseed =>
    split
    · rfl
    · next hupd =>
      rw [milestoneFire_prev]
      omega

theorem milestoneStep_fired (s : MilestoneState) (pct m : Nat)
    (h : (milestoneStep s pct).2 = some m) : s.prevPercentage < m ∧ m ≤ pct := by
  unfold milestoneStep at h
  split at h
  · simp at h
  · split at h
    · exact milestoneFire_fired s pct m h
    · exact milestoneFire_fired s pct m h

theorem milestoneStep_show (s : MilestoneState) (pct : Nat)
    (h : s.showCelebration = true) : (milestoneStep s pct).2 = none := by
  unfold milestoneStep
  split
  · rfl
  · split
    · simp only [Prod.snd]
      exact milestoneFire_show s pct h
    · exact milestoneFire_show s pct h

/-- C9: re-entrancy invariant.  For EVERY milestone state (reachable ones
included), a recompute step taken while a celebration is showing
(`Celebrating`) fires nothing; equivalently, a fire transition can only
happen from the `Idle` (not-celebrating) state. -/
theorem fire_only_from_idle (s : MilestoneState) (pct : Nat) :
    (s.showCelebration = true → (milestoneStep s pct).2 = none) ∧
    (∀ m : Nat, (milestoneStep s pct).2 = some m → s.showCelebration = false) := by
  constructor
  · exact milestoneStep_show s pct
  · intro m hm
    by_contra hshow
    have := milestoneStep_show s pct (by revert hshow; cases s.showCelebration <;> simp)
    rw [this] at hm
    exact Option.noConfusion hm

/-- Witness for `fire_only_from_idle`: a concrete celebrating state takes
a recompute step from 15 to 100 and fires nothing. -/
theorem fire_only_from_idle_witness :
    (milestoneStep (MilestoneState.mk 15 (some 20) true (some 20)) 100).2 = none :=
  (fire_only_from_idle (MilestoneState.mk 15 (some 20) true (some 20)) 100).1 rfl

theorem init_le_foldl_max (l : List Nat) (a : Nat) : a ≤ l.foldl max a := by
  induction l generalizing a with
  | nil => exact le_refl a
  | cons y ys ih => exact le_trans (le_max_left a y) (ih (max a y))

theorem le_foldl_max (l : List Nat) (a x : Nat) (hx : x ∈ l) : x ≤ l.foldl max a := by
  induction l generalizing a with
  | nil => cases hx
  | cons y ys ih =>
    rcases List.mem_cons.mp hx with h | h
    · subst h
      exact le_trans (le_max_right a x) (init_le_foldl_max ys (max a x))
    · exact ih (max a y) h

theorem foldl_max_le (l : List Nat) (a b : Nat) (ha : a ≤ b) (h : ∀ x ∈ l, x ≤ b) :
    l.foldl max a ≤ b := by
  induction l generalizing a with
  | nil => exact ha
  | cons y ys ih =>
    exact ih (max a y) (max_le ha (h y (List.mem_cons_self y ys)))
      (fun x hx => h x (List.mem_cons_of_mem y hx))

theorem foldl_max_mem (l : List Nat) (a : Nat) : l.foldl max a ∈ l ∨ l.foldl max a = a := by
  induction l generalizing a with
  | nil => exact Or.inr rfl
  | cons y ys ih =>
    rcases ih (max a y) with h | h
    · exact Or.inl (List.mem_cons_of_mem y h)
    · rcases max_choice a y with hm | hm
      · exact Or.inr (by rw [List.foldl_cons, h, hm])
      · exact Or.inl (by rw [List.foldl_cons, h, hm]; exact List.mem_cons_self y ys)

/-- C4: the seed transition.  Whenever `prevPercentage` still holds the 0
sentinel and the computed percentage is nonzero, no celebration fires,
`prevPercentage` is set to the current percentage, and (provided some
decile has been reached at all, `pct ≥ 10`) `lastFiredMilestone` is set to
`highestReachedMilestone pct`, which is a decile, is ≤ `pct`, and
dominates every decile ≤ `pct` — i.e. the highest decile ≤ the current
percentage.  In particular, at a first percentage of 47 nothing fires and
`lastFiredMilestone` is initialised to 40. -/
theorem seed_transition :
    (∀ (s : MilestoneState) (pct : Nat), s.prevPercentage = 0 → 0 < pct →
      (milestoneStep s pct).2 = none ∧
      (milestoneStep s pct).1.prevPercentage = pct ∧
      (10 ≤ pct →
        (milestoneStep s pct).1.lastMilestone = some (highestReachedMilestone pct) ∧
        highestReachedMilestone pct ∈ milestones ∧
        highestReachedMilestone pct ≤ pct ∧
        (∀ m ∈ milestones, m ≤ pct → m ≤ highestReachedMilestone pct))) ∧
    ((milestoneStep initialMilestoneState 47).2 = none ∧
      (milestoneStep initialMilestoneState 47).1.lastMilestone = some 40 ∧
      (milestoneStep initialMilestoneState 47).1.prevPercentage = 47) := by
  constructor
  · intro s pct h0 h1
    have hbranch : (s.prevPercentage = 0 ∧ pct > 0) := ⟨h0, h1⟩
    unfold milestoneStep
    rw [if_pos hbranch]
    refine ⟨rfl, rfl, fun h10 => ?_⟩
    have hmem : 10 ∈ milestones.filter (fun m => decide (pct ≥ m)) :=
      List.mem_filter.mpr ⟨by decide, decide_eq_true h10⟩
    have hlen : (milestones.filter (fun m => decide (pct ≥ m))).length > 0 :=
      List.length_pos.mpr (List.ne_nil_of_mem hmem)
    have hle : highestReachedMilestone pct ≤ pct := by
      refine foldl_max_le _ 0 pct (Nat.zero_le pct) (fun x hx => ?_)
      have := (List.mem_filter.mp hx).2
      exact of_decide_eq_true this
    have hin : highestReachedMilestone pct ∈ milestones := by
      rcases foldl_max_mem (milestones.filter (fun m => decide (pct ≥ m))) 0 with h | h
      · exact (List.mem_filter.mp h).1
      · exfalso
        have h10le : 10 ≤ highestReachedMilestone pct := le_foldl_max _ 0 10 hmem
        rw [highestReachedMilestone] at h10le
        omega
    refine ⟨?_, hin, hle, ?_⟩
    · simp only [Prod.fst]
      rw [if_pos hlen, highestReachedMilestone]
    · intro m hm hmle
      exact le_foldl_max _ 0 m (List.mem_filter.mpr ⟨hm, decide_eq_true hmle⟩)
  · exact ⟨by decide, by decide, by decide⟩

/-- Witness for `seed_transition`: its universally quantified part applied
at the initial state and first percentage 47. -/
theorem seed_transition_witness :
    (milestoneStep initialMilestoneState 47).2 = none ∧
    (milestoneStep initialMilestoneState 47).1.prevPercentage = 47 ∧
    (10 ≤ 47 →
      (milestoneStep initialMilestoneState 47).1.lastMilestone =
        some (highestReachedMilestone 47) ∧
      highestReachedMilestone 47 ∈ milestones ∧
      highestReachedMilestone 47 ≤ 47 ∧
      (∀ m ∈ milestones, m ≤ 47 → m ≤ highestReachedMilestone 47)) :=
  seed_transition.1 initialMilestoneState 47 rfl (by decide)

theorem firedList_cons (s : MilestoneState) (p : Nat) (ps : List Nat) :
    firedList s (p :: ps) =
      (milestoneStep s p).2.toList ++
        firedList (clearCelebration (milestoneStep s p).1) ps := rfl

theorem clearCelebration_prev (s : MilestoneState) :
    (clearCelebration s).prevPercentage = s.prevPercentage := rfl

theorem firedList_lb (ps : List Nat) :
    ∀ (s : MilestoneState), List.Pairwise (fun a b => a ≤ b) ps →
      (∀ q ∈ ps, s.prevPercentage ≤ q) →
      ∀ m ∈ firedList s ps, s.prevPercentage < m := by
  induction ps with
  | nil => intro s _ _ m hm; cases hm
  | cons p ps ih =>
    intro s hpair hub m hm
    rw [firedList_cons] at hm
    rcases List.mem_append.mp hm with hmem | hmem
    · cases ho : (milestoneStep s p).2 with
      | none => rw [ho] at hmem; cases hmem
      | some m0 =>
        rw [ho] at hmem
        simp only [Option.toList, List.mem_singleton] at hmem
        subst hmem
        exact (milestoneStep_fired s p m ho).1
    · have hprev : (clearCelebration (milestoneStep s p).1).prevPercentage = p := by
        rw [clearCelebration_prev, milestoneStep_prev]
      have hpair' := (List.pairwise_cons.mp hpair).2
      have hhead := (List.pairwise_cons.mp hpair).1
      have hub' : ∀ q ∈ ps, (clearCelebration (milestoneStep s p).1).prevPercentage ≤ q := by
        intro q hq; rw [hprev]; exact hhead q hq
      have hpm := ih (clearCelebration (milestoneStep s p).1) hpair' hub' m hmem
      have hsp : s.prevPercentage ≤ p := hub p (List.mem_cons_self p ps)
      rw [hprev] at hpm
      omega

theorem firedList_sorted (ps : List Nat) :
    ∀ (s : MilestoneState), List.Pairwise (fun a b => a ≤ b) ps →
      List.Sorted (fun a b => a < b) (firedList s ps) := by
  induction ps with
  | nil => intro s _; exact List.sorted_nil
  | cons p ps ih =>
    intro s hpair
    have hpair' := (List.pairwise_cons.mp hpair).2
    have hhead := (List.pairwise_cons.mp hpair).1
    have hprev : (clearCelebration (milestoneStep s p).1).prevPercentage = p := by
      rw [clearCelebration_prev, milestoneStep_prev]
    have hub' : ∀ q ∈ ps, (clearCelebration (milestoneStep s p).1).prevPercentage ≤ q := by
      intro q hq; rw [hprev]; exact hhead q hq
    rw [firedList_cons]
    cases ho : (milestoneStep s p).2 with
    | none =>
      simp only [Option.toList, List.nil_append]
      exact ih _ hpair'
    | some m0 =>
      simp only [Option.toList, List.singleton_append]
      rw [List.sorted_cons]
      refine ⟨?_, ih _ hpair'⟩
      intro b hb
      have hblb := firedList_lb ps (clearCelebration (milestoneStep s p).1) hpair' hub' b hb
      rw [hprev] at hblb
      have hm0 := (milestoneStep_fired s p m0 ho).2
      omega

/-- C1 counterexample: over the observed percentage sequence
`[0, 15, 15, 25, 100]`, starting from the initial milestone state, the
detector fires the deciles `[20, 30]` — NOT `10, 20, ..., 100` each once:
the seed at 15 suppresses 10 (and initialises `lastFiredMilestone` to 10),
and the jump 25 → 100 fires only the lowest newly crossed decile, 30. -/
theorem milestone_trace_counterexample :
    firedList initialMilestoneState [0, 15, 15, 25, 100] = [20, 30] ∧
    firedList initialMilestoneState [0, 15, 15, 25, 100] ≠
      [10, 20, 30, 40, 50, 60, 70, 80, 90, 100] := by
  constructor
  · decide
  · decide

/-- C1 (amended): for the trace `[0, 15, 15, 25, 100]` the detector fires
exactly `[20, 30]` — each fired decile at most once, in strictly
increasing order, and 10 is never (re)fired after 25 has been reached; in
general, over any monotonically non-decreasing percentage trace (with the
celebration auto-clear elapsing between recomputes) the fired milestones
are strictly increasing, hence each decile fires at most once per
monotonic upward run. -/
theorem milestone_fires_spec :
    firedList initialMilestoneState [0, 15, 15, 25, 100] = [20, 30] ∧
    (∀ (s : MilestoneState) (ps : List Nat), List.Pairwise (fun a b => a ≤ b) ps →
      List.Sorted (fun a b => a < b) (firedList s ps)) := by
  exact ⟨by decide, fun s ps h => firedList_sorted ps s h⟩

/-- Witness for `milestone_fires_spec`: its universally quantified part
applied to the initial state and the concrete monotone trace
`[0, 15, 15, 25, 100]`. -/
theorem milestone_fires_spec_witness :
    List.Pairwise (fun a b : Nat => a ≤ b) [0, 15, 15, 25, 100] ∧
    List.Sorted (fun a b => a < b) (firedList initialMilestoneState [0, 15, 15, 25, 100]) :=
  ⟨by decide, milestone_fires_spec.2 initialMilestoneState [0, 15, 15, 25, 100] (by decide)⟩
